import Mathlib

/-!
Verification of the risk-analysis notebook (factor construction, FMCAR risk
attribution, tracking-portfolio example).  Time series are embedded as
`List ℚ` (exact rational arithmetic in place of float64); tabular data as
lists of records.  Python 2 integer division on lengths is `Nat` division.
-/

/-- Arithmetic mean of a list, `sum / length` (`ℚ` convention: `x / 0 = 0`,
so the mean of `[]` is `0`). -/
def mean (xs : List ℚ) : ℚ := xs.sum / xs.length

/-- Entry of the sample covariance matrix as `np.cov` computes it with its
default normalization: `Σ (x - x̄)(y - ȳ) / (n - 1)`.  `np.cov(f1, f2)` needs
equal-length inputs; `cov[0,1]` is `sampleCov f1 f2`, `cov[0,0]` is
`sampleCov f1 f1`, `cov[1,1]` is `sampleCov f2 f2`. -/
def sampleCov (xs ys : List ℚ) : ℚ :=
  (List.zipWith (fun x y => (x - mean xs) * (y - mean ys)) xs ys).sum
    / ((xs.length : ℚ) - 1)

/-- The notebook's `ar_squared = (active.std())**2`: pandas `std()` defaults to
the sample estimator (`ddof=1`), so the square is exactly
`Σ (x - x̄)² / (n - 1)`. -/
def sampleVar (xs : List ℚ) : ℚ :=
  (xs.map (fun x => (x - mean xs) ^ 2)).sum / ((xs.length : ℚ) - 1)

/-- The notebook's `fmcar1 = (b1*(b2*cov[0,1] + b1*cov[0,0]))/ar_squared`,
with `cov = np.cov(f1, f2)` and `ar_squared = (active.std())**2`. -/
def fmcar1 (b1 b2 : ℚ) (f1 f2 active : List ℚ) : ℚ :=
  (b1 * (b2 * sampleCov f1 f2 + b1 * sampleCov f1 f1)) / sampleVar active

/-- The notebook's `fmcar2 = (b2*(b1*cov[0,1] + b2*cov[1,1]))/ar_squared`.
Note the code reuses `cov[0,1]` (= `Cov(F1, F2)`) here. -/
def fmcar2 (b1 b2 : ℚ) (f1 f2 active : List ℚ) : ℚ :=
  (b2 * (b1 * sampleCov f1 f2 + b2 * sampleCov f2 f2)) / sampleVar active

/-- Sample covariance is symmetric once the two series have equal length
(the denominator `n - 1` is taken from the first argument). -/
theorem sampleCov_comm (xs ys : List ℚ) (h : xs.length = ys.length) :
    sampleCov xs ys = sampleCov ys xs := by
  unfold sampleCov
  rw [h, List.zipWith_comm]
  congr 1
  congr 1
  congr 1
  funext a b
  ring

/-- Diagonal covariance entry coincides with the sample variance. -/
theorem sampleCov_self (xs : List ℚ) : sampleCov xs xs = sampleVar xs := by
  unfold sampleCov sampleVar
  rw [List.zipWith_same]
  congr 1
  congr 1
  congr 1
  funext a
  ring

/-- General FMCAR formula as stated in the notebook text,
`FMCAR_j = b_j · (Σ_{i=1}^K b_i · Cov(F_j, F_i)) / (active risk)²`, for a
factor j with coefficient `bj` and series `Fj`, against the full model given
as the list `bF` of all (coefficient, factor-series) pairs. -/
def FMCARj (bj : ℚ) (Fj : List ℚ) (bF : List (ℚ × List ℚ)) (active : List ℚ) : ℚ :=
  bj * ((bF.map (fun p => p.1 * sampleCov Fj p.2)).sum) / sampleVar active

/-- C1: for the K = 2 factor model, the code's FMCAR values are exactly
`b_j · (Σ_i b_i · Cov(F_j, F_i)) / Var(active)` for j = 1, 2, for every pair
of equal-length factor series, every active-return series, and every pair of
slope coefficients b1, b2 (in particular the OLS-fitted ones), with `Cov` the
sample covariance matrix of the two factor series and `Var` the sample
variance of the active-return series. -/
theorem fmcar_matches_formula (b1 b2 : ℚ) (f1 f2 active : List ℚ)
    (h : f1.length = f2.length) :
    fmcar1 b1 b2 f1 f2 active
      = b1 * (b1 * sampleCov f1 f1 + b2 * sampleCov f1 f2) / sampleVar active
    ∧ fmcar2 b1 b2 f1 f2 active
      = b2 * (b1 * sampleCov f2 f1 + b2 * sampleCov f2 f2) / sampleVar active := by
  constructor
  · unfold fmcar1
    ring
  · unfold fmcar2
    rw [sampleCov_comm f1 f2 h]

/-- C1 witness: the FMCAR formula identity instantiated on concrete series. -/
theorem fmcar_matches_formula_witness :
    fmcar1 2 3 [1, 2, 4] [2, 1, 3] [1, 2, 2]
      = 2 * (2 * sampleCov [1, 2, 4] [1, 2, 4]
          + 3 * sampleCov [1, 2, 4] [2, 1, 3]) / sampleVar [1, 2, 2]
    ∧ fmcar2 2 3 [1, 2, 4] [2, 1, 3] [1, 2, 2]
      = 3 * (2 * sampleCov [2, 1, 3] [1, 2, 4]
          + 3 * sampleCov [2, 1, 3] [2, 1, 3]) / sampleVar [1, 2, 2] :=
  fmcar_matches_formula 2 3 [1, 2, 4] [2, 1, 3] [1, 2, 2] (by decide)

/-- C6: the covariance matrix (`np.cov`, default `ddof`) and the variance of
the active series (`(std())**2`, pandas default `ddof=1`) use the same
sample (n − 1) normalization: on any series the diagonal covariance entry and
the variance estimator agree exactly. -/
theorem cov_var_consistent_normalization (xs : List ℚ) :
    sampleCov xs xs = sampleVar xs :=
  sampleCov_self xs

/-- C5: for a single-factor model (K = 1) the FMCAR formula degenerates to
`b₁² · Var(F₁) / Var(active)`: the covariance matrix collapses to the sample
variance of the lone factor. -/
theorem fmcar_single_factor (b1 : ℚ) (f1 active : List ℚ)
    (_h : sampleVar active ≠ 0) :
    FMCARj b1 f1 [(b1, f1)] active = b1 ^ 2 * sampleVar f1 / sampleVar active := by
  unfold FMCARj
  rw [List.map_singleton, List.sum_singleton, sampleCov_self]
  ring

/-- C5 witness: the K = 1 degeneration on a concrete factor and a concrete
active series with nonzero sample variance. -/
theorem fmcar_single_factor_witness :
    sampleVar [1, 2, 4] ≠ 0
    ∧ FMCARj 5 [3, 1, 2] [(5, [3, 1, 2])] [1, 2, 4]
        = 5 ^ 2 * sampleVar [3, 1, 2] / sampleVar [1, 2, 4] :=
  ⟨by norm_num [sampleVar, mean], fmcar_single_factor 5 [3, 1, 2] [1, 2, 4]
    (by norm_num [sampleVar, mean])⟩

/-- The notebook's `pct_change()[1:]` applied to a price series: percentage
change `(p_{t+1} - p_t) / p_t` from each period to the next.  `pct_change`
yields one (undefined) leading observation, which `[1:]` drops; zipping the
series with its own tail performs both steps at once. -/
def returnsOf (prices : List ℚ) : List ℚ :=
  List.zipWith (fun p c => (c - p) / p) prices prices.tail

/-- Pointwise sum of a list of equal-length series (cross-sectional sum over
assets at each date). -/
def sumSeries : List (List ℚ) → List ℚ
  | [] => []
  | [r] => r
  | r :: s :: rest => List.zipWith (· + ·) r (sumSeries (s :: rest))

/-- Cross-sectional mean at each date, as `np.mean` over the dates×assets
frame produces it: at each date, the average of that date's per-asset values. -/
def colMeans (rss : List (List ℚ)) : List ℚ :=
  (sumSeries rss).map (fun x => x / (rss.length : ℚ))

/-- Factor series as the notebook builds `f1` and `f2`: the cross-sectional
mean return of the top bucket's assets minus that of the bottom bucket's,
each obtained via `pct_change()[1:]` on the bucket's price series. -/
def factorSeries (topPrices bottomPrices : List (List ℚ)) : List ℚ :=
  List.zipWith (· - ·) (colMeans (topPrices.map returnsOf))
    (colMeans (bottomPrices.map returnsOf))

theorem returnsOf_length (prices : List ℚ) :
    (returnsOf prices).length = prices.length - 1 := by
  unfold returnsOf
  rw [List.length_zipWith, List.length_tail]
  exact Nat.min_eq_right (Nat.sub_le _ _)

theorem sumSeries_length (m : ℕ) :
    ∀ rss : List (List ℚ), rss ≠ [] → (∀ r ∈ rss, r.length = m) →
      (sumSeries rss).length = m
  | [], h, _ => absurd rfl h
  | [r], _, hm => hm r (by simp)
  | r :: s :: rest, _, hm => by
      have ih := sumSeries_length m (s :: rest) (by simp)
        (fun x hx => hm x (List.mem_cons_of_mem r hx))
      unfold sumSeries
      rw [List.length_zipWith, ih, hm r (List.mem_cons_self r _)]
      exact Nat.min_self m

theorem colMeans_length (m : ℕ) (rss : List (List ℚ)) (h : rss ≠ [])
    (hm : ∀ r ∈ rss, r.length = m) : (colMeans rss).length = m := by
  unfold colMeans
  rw [List.length_map]
  exact sumSeries_length m rss h hm

/-- C7: a price series of length N ≥ 1 yields exactly N − 1 return
observations (`pct_change` leaves the first observation undefined and `[1:]`
drops it), and consequently any factor series built from nonempty buckets of
length-N price histories has length N − 1. -/
theorem return_and_factor_series_length (prices : List ℚ) (N : ℕ)
    (topP botP : List (List ℚ)) (_hp : 1 ≤ prices.length) (_hN : 1 ≤ N)
    (ht : topP ≠ []) (hb : botP ≠ [])
    (hT : ∀ p ∈ topP, p.length = N) (hB : ∀ p ∈ botP, p.length = N) :
    (returnsOf prices).length = prices.length - 1
    ∧ (factorSeries topP botP).length = N - 1 := by
  refine ⟨returnsOf_length prices, ?_⟩
  unfold factorSeries
  have lt : (colMeans (topP.map returnsOf)).length = N - 1 := by
    refine colMeans_length (N - 1) _ (by simpa using ht) ?_
    intro r hr
    obtain ⟨p, hp', rfl⟩ := List.mem_map.mp hr
    rw [returnsOf_length, hT p hp']
  have lb : (colMeans (botP.map returnsOf)).length = N - 1 := by
    refine colMeans_length (N - 1) _ (by simpa using hb) ?_
    intro r hr
    obtain ⟨p, hp', rfl⟩ := List.mem_map.mp hr
    rw [returnsOf_length, hB p hp']
  rw [List.length_zipWith, lt, lb]
  exact Nat.min_self _

/-- C7 witness: two length-3 price histories per bucket give return series and
a factor series of length 2. -/
theorem return_and_factor_series_length_witness :
    (returnsOf [1, 2, 4]).length = 3 - 1
    ∧ (factorSeries [[1, 2, 4]] [[2, 3, 6]]).length = 3 - 1 :=
  return_and_factor_series_length [1, 2, 4] 3 [[1, 2, 4]] [[2, 3, 6]]
    (by decide) (by decide) (by decide) (by decide)
    (by intro p hp; simp only [List.mem_singleton] at hp; rw [hp]; rfl)
    (by intro p hp; simp only [List.mem_singleton] at hp; rw [hp]; rfl)

/-- The notebook's FMCAR cell viewed as a fallible computation.  The code has
no guard on `ar_squared`: it divides unconditionally, and numpy float64
division raises no exception even for a zero denominator (it silently yields
inf/NaN under a runtime warning).  So every path returns a value and the
embedding is always `Except.ok` of the two quotients (`ℚ` convention
`x / 0 = 0` standing in for the non-signalling float result). -/
def fmcarCode (b1 b2 : ℚ) (f1 f2 active : List ℚ) : Except String (ℚ × ℚ) :=
  Except.ok (fmcar1 b1 b2 f1 f2 active, fmcar2 b1 b2 f1 f2 active)

/-- C4 counterexample: on a constant active-return series the sample variance
is zero, yet the FMCAR cell still returns a value (`.ok`), not a signalled
division-by-zero error. -/
theorem fmcar_zero_variance_counterexample :
    sampleVar [1, 1, 1] = 0
    ∧ fmcarCode 2 3 [1, 2, 4] [2, 1, 3] [1, 1, 1] = Except.ok (0, 0) := by
  constructor
  · norm_num [sampleVar, mean]
  · show Except.ok _ = _
    norm_num [fmcar1, fmcar2, sampleVar, mean]

/-- C4 amended: the code performs no zero-variance check — even when the
sample variance of the active-return series is zero it returns the two
FMCAR quotients (in floating point: silent inf/NaN), never an explicitly
signalled error. -/
theorem fmcar_no_zero_variance_check (b1 b2 : ℚ) (f1 f2 active : List ℚ)
    (_h : sampleVar active = 0) :
    fmcarCode b1 b2 f1 f2 active
      = Except.ok (fmcar1 b1 b2 f1 f2 active, fmcar2 b1 b2 f1 f2 active) := rfl

/-- C4 amended witness: the no-check behaviour at a concrete zero-variance
input. -/
theorem fmcar_no_zero_variance_check_witness :
    fmcarCode 2 3 [1, 2, 4] [2, 1, 3] [4, 4, 4]
      = Except.ok (fmcar1 2 3 [1, 2, 4] [2, 1, 3] [4, 4, 4],
          fmcar2 2 3 [1, 2, 4] [2, 1, 3] [4, 4, 4]) :=
  fmcar_no_zero_variance_check 2 3 [1, 2, 4] [2, 1, 3] [4, 4, 4]
    (by norm_num [sampleVar, mean])

/-- Top bucket as the notebook slices it: `data.sort(attr)[7*len(data)/10:]`.
Python 2 `/` on ints is floor division, so this drops the first
`⌊7N/10⌋` entries of the ascending sort. -/
def topBucket {α : Type} (l : List α) : List α := l.drop (7 * l.length / 10)

/-- Bottom bucket: `data.sort(attr)[:3*len(data)/10]`, the first `⌊3N/10⌋`
entries of the ascending sort. -/
def bottomBucket {α : Type} (l : List α) : List α := l.take (3 * l.length / 10)

/-- C2 counterexample: for N = 7 the top bucket does not start at index
`⌈0.7·N⌉ = 5` — the code's floor division starts it at index 4, giving 3
elements instead of the claimed `N − ⌈0.7N⌉ = 2`. -/
theorem bucket_boundaries_counterexample :
    topBucket (List.range 7) ≠ (List.range 7).drop ((7 * 7 + 9) / 10)
    ∧ (topBucket (List.range 7)).length ≠ 7 - (7 * 7 + 9) / 10 := by
  constructor <;> decide

/-- C2 amended: the bottom bucket is the first `⌊0.3N⌋` assets and the top
bucket starts at index `⌊0.7N⌋` (floor, per Python 2 integer division), so it
has size `N − ⌊7N/10⌋`; for N = 10 this gives bottom 3, top 3, middle 4, and
for N = 100 bottom 30, top 30, middle 40 (where floor and ceiling agree). -/
theorem bucket_boundaries (α : Type) (l : List α) (N : ℕ) (h : l.length = N) :
    bottomBucket l = l.take (3 * N / 10)
    ∧ topBucket l = l.drop (7 * N / 10)
    ∧ (bottomBucket l).length = 3 * N / 10
    ∧ (topBucket l).length = N - 7 * N / 10
    ∧ (N = 10 → (bottomBucket l).length = 3 ∧ (topBucket l).length = 3
        ∧ N - (bottomBucket l).length - (topBucket l).length = 4)
    ∧ (N = 100 → (bottomBucket l).length = 30 ∧ (topBucket l).length = 30
        ∧ N - (bottomBucket l).length - (topBucket l).length = 40) := by
  subst h
  have hbot : (bottomBucket l).length = 3 * l.length / 10 := by
    unfold bottomBucket
    rw [List.length_take]
    exact Nat.min_eq_left (Nat.div_le_of_le_mul (by omega))
  have htop : (topBucket l).length = l.length - 7 * l.length / 10 := by
    unfold topBucket
    exact List.length_drop _ _
  refine ⟨rfl, rfl, hbot, htop, ?_, ?_⟩ <;> intro hN <;>
    rw [hbot, htop, hN] <;> omega

/-- C2 amended witness: bucket boundaries evaluated on a concrete 10-element
universe. -/
theorem bucket_boundaries_witness :
    bottomBucket (List.range 10) = (List.range 10).take 3
    ∧ topBucket (List.range 10) = (List.range 10).drop 7
    ∧ (bottomBucket (List.range 10)).length = 3
    ∧ (topBucket (List.range 10)).length = 10 - 7
    ∧ (10 = 10 → (bottomBucket (List.range 10)).length = 3
        ∧ (topBucket (List.range 10)).length = 3
        ∧ 10 - (bottomBucket (List.range 10)).length
            - (topBucket (List.range 10)).length = 4)
    ∧ (10 = 100 → (bottomBucket (List.range 10)).length = 30
        ∧ (topBucket (List.range 10)).length = 30
        ∧ 10 - (bottomBucket (List.range 10)).length
            - (topBucket (List.range 10)).length = 40) :=
  bucket_boundaries ℕ (List.range 10) 10 (by decide)

/-- The worked tracking-portfolio system from the notebook: benchmark
sensitivities (1, 1.1), assets with sensitivities (0.7, 1.1), (0.1, 0.5),
(1.5, 1.3); two sensitivity-matching equations plus the budget constraint. -/
def trackingSystem (w1 w2 w3 : ℚ) : Prop :=
  (7/10) * w1 + (1/10) * w2 + (15/10) * w3 = 1
  ∧ (11/10) * w1 + (5/10) * w2 + (13/10) * w3 = 11/10
  ∧ w1 + w2 + w3 = 1

/-- C3: the worked 3×3 tracking-portfolio system has the unique solution
w = (1/3, 1/6, 1/2). -/
theorem trackingSystem_unique_solution :
    trackingSystem (1/3) (1/6) (1/2)
    ∧ ∀ w1 w2 w3 : ℚ, trackingSystem w1 w2 w3
        → w1 = 1/3 ∧ w2 = 1/6 ∧ w3 = 1/2 := by
  constructor
  · refine ⟨?_, ?_, ?_⟩ <;> norm_num
  · intro w1 w2 w3 ⟨h1, h2, h3⟩
    refine ⟨by linarith, by linarith, by linarith⟩

/-- C3 witness: the uniqueness direction applied to the concrete solution
(5/15, 1/6, 1/2) of the system. -/
theorem trackingSystem_unique_solution_witness :
    (5 : ℚ)/15 = 1/3 ∧ (1 : ℚ)/6 = 1/6 ∧ (1 : ℚ)/2 = 1/2 :=
  trackingSystem_unique_solution.2 (5/15) (1/6) (1/2)
    (by refine ⟨?_, ?_, ?_⟩ <;> norm_num)

/-- A 3×3 rational matrix, rows being equations of the K = 2
tracking-portfolio system (two factor equations plus the budget row). -/
structure Mat3 where
  a11 : ℚ
  a12 : ℚ
  a13 : ℚ
  a21 : ℚ
  a22 : ℚ
  a23 : ℚ
  a31 : ℚ
  a32 : ℚ
  a33 : ℚ
deriving DecidableEq

/-- A rational 3-vector (right-hand side, or weight vector). -/
structure Vec3 where
  x1 : ℚ
  x2 : ℚ
  x3 : ℚ
deriving DecidableEq

/-- Determinant of a `Mat3` by cofactor expansion along the first row. -/
def det3 (m : Mat3) : ℚ :=
  m.a11 * (m.a22 * m.a33 - m.a23 * m.a32)
    - m.a12 * (m.a21 * m.a33 - m.a23 * m.a31)
    + m.a13 * (m.a21 * m.a32 - m.a22 * m.a31)

/-- Modelled from the spec: the repository contains no solver code for the
tracking-portfolio system (the notebook only works the example in prose), so
this follows the specification's words — "Solve via standard linear-system
solution", and "if the coefficient matrix is singular ... signal an explicit
no-unique-solution error rather than returning an arbitrary pseudo-solution".
Cramer's rule with an explicit singularity check. -/
def solve3 (m : Mat3) (c : Vec3) : Except String Vec3 :=
  if det3 m = 0 then
    Except.error "no unique solution: singular coefficient matrix"
  else
    Except.ok
      { x1 := det3 { m with a11 := c.x1, a21 := c.x2, a31 := c.x3 } / det3 m
        x2 := det3 { m with a12 := c.x1, a22 := c.x2, a32 := c.x3 } / det3 m
        x3 := det3 { m with a13 := c.x1, a23 := c.x2, a33 := c.x3 } / det3 m }

/-- Coefficient matrix of the tracking system for three assets with factor
sensitivities `(s1.1, s1.2)`, `(s2.1, s2.2)`, `(s3.1, s3.2)`: first row the
first-factor sensitivities, second row the second-factor sensitivities, last
row the budget constraint. -/
def trackingMatrix (s1 s2 s3 : ℚ × ℚ) : Mat3 :=
  { a11 := s1.1, a12 := s2.1, a13 := s3.1
    a21 := s1.2, a22 := s2.2, a23 := s3.2
    a31 := 1, a32 := 1, a33 := 1 }

/-- C8: a singular coefficient matrix makes the solver signal the explicit
no-unique-solution error (never a numeric weight vector); in particular three
collinear asset sensitivity vectors `(b_i, λ·b_i)` always produce a singular
matrix and hence that error. -/
theorem solve3_singular_error (m : Mat3) (c : Vec3) (lam b1 b2 b3 : ℚ)
    (h : det3 m = 0) :
    solve3 m c = Except.error "no unique solution: singular coefficient matrix"
    ∧ (∀ v : Vec3, solve3 m c ≠ Except.ok v)
    ∧ solve3 (trackingMatrix (b1, lam * b1) (b2, lam * b2) (b3, lam * b3)) c
        = Except.error "no unique solution: singular coefficient matrix" := by
  have hcol : det3 (trackingMatrix (b1, lam * b1) (b2, lam * b2) (b3, lam * b3)) = 0 := by
    unfold det3 trackingMatrix
    ring
  refine ⟨?_, ?_, ?_⟩
  · unfold solve3
    rw [if_pos h]
  · intro v hv
    unfold solve3 at hv
    rw [if_pos h] at hv
    exact Except.noConfusion hv
  · unfold solve3
    rw [if_pos hcol]

/-- C8 witness: three collinear sensitivity vectors (1,2), (2,4), (3,6) give
determinant zero and the explicit error. -/
theorem solve3_singular_error_witness :
    solve3 (trackingMatrix (1, 2) (2, 4) (3, 6)) ⟨1, 11/10, 1⟩
      = Except.error "no unique solution: singular coefficient matrix" :=
  (solve3_singular_error (trackingMatrix (1, 2) (2, 4) (3, 6)) ⟨1, 11/10, 1⟩
      2 1 2 3 (by norm_num [det3, trackingMatrix])).1

/-- A row of the fundamentals table: one asset's `market_cap` and
`book_value_yield`, either possibly missing (NaN). -/
structure AssetRow where
  marketCap : Option ℚ
  bookYield : Option ℚ
deriving DecidableEq

/-- The notebook's `data.dropna(inplace=True)`: keep only rows with both
fundamentals present. -/
def dropna (rows : List AssetRow) : List AssetRow :=
  rows.filter (fun r => r.marketCap.isSome && r.bookYield.isSome)

/-- Book-to-price positivity test `data['book_value_yield'] > 0` on one row
(pandas: a NaN comparison is false). -/
def yieldPos (r : AssetRow) : Bool :=
  match r.bookYield with
  | some v => decide (0 < v)
  | none => false

/-- The shared universe `data` after both cleaning steps: `dropna` then the
Fama-French filter keeping strictly positive book-to-price. -/
def filteredData (rows : List AssetRow) : List AssetRow :=
  (dropna rows).filter yieldPos

/-- Ascending sort by a scalar key, modelling `data.sort(column)` (missing
keys, already removed by `dropna`, default to 0). -/
def sortByKey (key : AssetRow → ℚ) (rows : List AssetRow) : List AssetRow :=
  List.insertionSort (fun a b => key a ≤ key b) rows

/-- The notebook's `market_cap_top = data.sort('market_cap')[7*len(data)/10:]`. -/
def marketCapTop (rows : List AssetRow) : List AssetRow :=
  topBucket (sortByKey (fun r => r.marketCap.getD 0) (filteredData rows))

/-- The notebook's `market_cap_bottom = data.sort('market_cap')[:3*len(data)/10]`. -/
def marketCapBottom (rows : List AssetRow) : List AssetRow :=
  bottomBucket (sortByKey (fun r => r.marketCap.getD 0) (filteredData rows))

/-- The notebook's `bp_top = data.sort('book_value_yield')[7*len(data)/10:]`. -/
def bpTop (rows : List AssetRow) : List AssetRow :=
  topBucket (sortByKey (fun r => r.bookYield.getD 0) (filteredData rows))

/-- The notebook's `bp_bottom = data.sort('book_value_yield')[:3*len(data)/10]`. -/
def bpBottom (rows : List AssetRow) : List AssetRow :=
  bottomBucket (sortByKey (fun r => r.bookYield.getD 0) (filteredData rows))

/-- Membership in either bucket of any sorted view of the filtered universe
implies membership in the filtered universe. -/
theorem mem_of_mem_bucket (key : AssetRow → ℚ) (rows : List AssetRow)
    (r : AssetRow)
    (h : r ∈ topBucket (sortByKey key (filteredData rows))
      ∨ r ∈ bottomBucket (sortByKey key (filteredData rows))) :
    r ∈ filteredData rows := by
  have hs : r ∈ sortByKey key (filteredData rows) := by
    rcases h with h | h
    · exact List.drop_subset _ _ h
    · exact List.take_subset _ _ h
  exact (List.perm_insertionSort _ _).mem_iff.mp hs

/-- Rows of the filtered universe have both fundamentals present and a
strictly positive book-to-price yield. -/
theorem filteredData_complete_and_positive (rows : List AssetRow)
    (r : AssetRow) (h : r ∈ filteredData rows) :
    r.marketCap.isSome = true ∧ ∃ v : ℚ, r.bookYield = some v ∧ 0 < v := by
  unfold filteredData dropna at h
  have h1 := List.mem_filter.mp h
  have h2 := List.mem_filter.mp h1.1
  have hmc : r.marketCap.isSome = true := by
    have := h2.2
    simp only [Bool.and_eq_true] at this
    exact this.1
  refine ⟨hmc, ?_⟩
  have hy := h1.2
  unfold yieldPos at hy
  cases hby : r.bookYield with
  | none => rw [hby] at hy; exact Bool.noConfusion hy
  | some v =>
      rw [hby] at hy
      exact ⟨v, rfl, of_decide_eq_true hy⟩

/-- C9: the dropna and positive book-to-price filters are applied to the
shared universe before either ranking, so every asset in the market-cap
factor's top or bottom bucket (not merely the book-to-price factor's) has
complete fundamentals and strictly positive book-to-price yield. -/
theorem marketCap_buckets_filtered (rows : List AssetRow) (r : AssetRow)
    (h : r ∈ marketCapTop rows ∨ r ∈ marketCapBottom rows) :
    r.marketCap.isSome = true ∧ ∃ v : ℚ, r.bookYield = some v ∧ 0 < v :=
  filteredData_complete_and_positive rows r
    (mem_of_mem_bucket (fun r => r.marketCap.getD 0) rows r h)

/-- Concrete six-row demo universe: one incomplete row, one row with
non-positive book-to-price, four clean rows. -/
def demoRows : List AssetRow :=
  [⟨none, some 1⟩, ⟨some 10, some (-1)⟩, ⟨some 40, some 2⟩,
   ⟨some 20, some 3⟩, ⟨some 30, some 1⟩, ⟨some 5, some 4⟩]

/-- C9 witness: the top market-cap bucket of the demo universe contains only
clean rows; checked on its largest-cap member. -/
theorem marketCap_buckets_filtered_witness :
    (AssetRow.mk (some 40) (some 2)).marketCap.isSome = true
    ∧ ∃ v : ℚ, (AssetRow.mk (some 40) (some 2)).bookYield = some v ∧ 0 < v :=
  marketCap_buckets_filtered demoRows ⟨some 40, some 2⟩ (by left; decide)

/-- Bottom and top buckets of a duplicate-free list never overlap, because
`⌊3N/10⌋ ≤ ⌊7N/10⌋`. -/
theorem bottomBucket_disjoint_topBucket {α : Type} [DecidableEq α]
    (l : List α) (h : l.Nodup) : List.Disjoint (bottomBucket l) (topBucket l) := by
  unfold bottomBucket topBucket
  exact List.disjoint_take_drop h
    (Nat.div_le_div_right (Nat.mul_le_mul_right _ (by norm_num)))

/-- Sorting any view of the filtered universe of a duplicate-free row list
yields a duplicate-free list. -/
theorem sortByKey_filteredData_nodup (key : AssetRow → ℚ)
    (rows : List AssetRow) (h : rows.Nodup) :
    (sortByKey key (filteredData rows)).Nodup := by
  unfold sortByKey filteredData dropna
  exact ((List.perm_insertionSort _ _).nodup_iff).mpr ((h.filter _).filter _)

/-- C10: the bottom bucket (indices `0` to `⌊3N/10⌋ − 1` of the ascending
sort) and the top bucket (indices `⌊7N/10⌋` to `N − 1`) are disjoint for
every universe, since `⌊3N/10⌋ ≤ ⌊7N/10⌋`; in particular no asset is ever in
both the long and the short leg of either factor. -/
theorem factor_legs_disjoint (rows : List AssetRow) (h : rows.Nodup) :
    3 * rows.length / 10 ≤ 7 * rows.length / 10
    ∧ List.Disjoint (bottomBucket rows) (topBucket rows)
    ∧ List.Disjoint (marketCapBottom rows) (marketCapTop rows)
    ∧ List.Disjoint (bpBottom rows) (bpTop rows) := by
  refine ⟨Nat.div_le_div_right (Nat.mul_le_mul_right _ (by norm_num)),
    bottomBucket_disjoint_topBucket rows h, ?_, ?_⟩
  · exact bottomBucket_disjoint_topBucket _
      (sortByKey_filteredData_nodup (fun r => r.marketCap.getD 0) rows h)
  · exact bottomBucket_disjoint_topBucket _
      (sortByKey_filteredData_nodup (fun r => r.bookYield.getD 0) rows h)

/-- C10 witness: bucket disjointness evaluated on the concrete demo
universe. -/
theorem factor_legs_disjoint_witness :
    3 * demoRows.length / 10 ≤ 7 * demoRows.length / 10
    ∧ List.Disjoint (bottomBucket demoRows) (topBucket demoRows)
    ∧ List.Disjoint (marketCapBottom demoRows) (marketCapTop demoRows)
    ∧ List.Disjoint (bpBottom demoRows) (bpTop demoRows) :=
  factor_legs_disjoint demoRows (by decide)
